import Mathlib

/- The four rational operations below are irreducible by default,
which blocks definitional evaluation of concrete stores; restoring
the default transparency lets the kernel evaluate them (this changes
no statement and no proof obligation). -/
attribute [local semireducible] Rat.add Rat.sub Rat.mul Rat.inv

/- Verification of the reservation and capacity core of the
Advanced Vehicle Parking System backend.

The definitions below are a shallow embedding of the Python source:
  models.py        (the data model and Reservation.calculate_cost)
  routes/user.py   (book_spot, release_spot, download_csv)
  routes/admin.py  (create_parking_lot, update_parking_lot)

Modelling conventions: timestamps and money are exact rationals, and
the Python builtin round(x, 2) is modelled by round-half-to-even at
two decimal places over the rationals.  The SQLAlchemy store is a
record of lists kept in insertion (rowid) order, so a query with
.first and no ORDER BY returns the first match in creation order,
matching the SQLite default row order used by the source.  The HTTP,
JWT, cache and mail glue is out of scope.  Every operation returns
the new store paired with the committed outcome; an error outcome
returns the store unchanged, which models the early return before
db.session.commit together with the rollback of the uncommitted
session. -/

/-- Spot status column of parking_spots: the source stores the
one-letter strings A (Available) and O (Occupied). -/
inductive SpotStatus
  | A
  | O
deriving DecidableEq, Repr

/-- parking_lots row.  The location strings (name, address, pin code)
are presentation glue and carry no logic, so they are omitted. -/
structure ParkingLot where
  id : Nat
  price_per_hour : ℚ
  number_of_spots : Nat
deriving DecidableEq, Repr

/-- parking_spots row.  spot_number holds the numeric index i of the
label string SPOT-lotid-i rendered by spotLabel below; the rendered
string is injective in i for a fixed lot, so label questions reduce
to questions about the index. -/
structure ParkingSpot where
  id : Nat
  lot_id : Nat
  spot_number : Nat
  status : SpotStatus
deriving DecidableEq, Repr

/-- reservations row. -/
structure Reservation where
  id : Nat
  spot_id : Nat
  user_id : Nat
  parking_timestamp : ℚ
  leaving_timestamp : Option ℚ
  parking_cost : Option ℚ
  duration_hours : Option ℚ
  remarks : Option String
deriving DecidableEq, Repr

/-- user_activities.activity_type values used by the source. -/
inductive ActivityType
  | login
  | booking
  | release
deriving DecidableEq, Repr

/-- user_activities row (the free-text description is glue). -/
structure UserActivity where
  user_id : Nat
  activity_type : ActivityType
deriving DecidableEq, Repr

/-- The entity store: one list per table, in insertion order, plus
the next autoincrement primary key of each table that the modelled
operations insert into. -/
structure Store where
  lots : List ParkingLot
  spots : List ParkingSpot
  reservations : List Reservation
  activities : List UserActivity
  nextLotId : Nat
  nextSpotId : Nat
  nextResvId : Nat
deriving DecidableEq, Repr

/-- Error outcomes of the modelled routes, one per distinct error
response of the source: AlreadyBooked is the 400 with message
You already have an active booking, NoAvailability the 404 with
message No available spots in this parking lot, NotFound the 404
for a missing reservation or lot, Unauthorized the 403,
AlreadyReleased the 400 with message Spot already released, and
CapacityConflict the 400 with message Cannot reduce spots. -/
inductive ApiError
  | AlreadyBooked
  | NoAvailability
  | NotFound
  | Unauthorized
  | AlreadyReleased
  | CapacityConflict
deriving DecidableEq, Repr

instance exceptDecidableEq {ε α : Type} [DecidableEq ε] [DecidableEq α] :
    DecidableEq (Except ε α) := fun x y =>
  match x, y with
  | Except.error a, Except.error b =>
    if h : a = b then isTrue (by rw [h])
    else isFalse (by intro hc; cases hc; exact h rfl)
  | Except.error _, Except.ok _ => isFalse (by intro hc; cases hc)
  | Except.ok _, Except.error _ => isFalse (by intro hc; cases hc)
  | Except.ok a, Except.ok b =>
    if h : a = b then isTrue (by rw [h])
    else isFalse (by intro hc; cases hc; exact h rfl)

/-- Update, in place, every element whose key equals k.  This models
an ORM attribute assignment on a fetched row: the list order and the
keys are unchanged. -/
def mapIfKey {α : Type} (key : α → Nat) (k : Nat) (f : α → α) (l : List α) : List α :=
  l.map (fun x => if key x = k then f x else x)

/-- Floor of a rational as an integer (the denominator is positive,
so flooring division of the numerator by the denominator is exact). -/
def ratFloor (q : ℚ) : ℤ :=
  Int.fdiv q.num (q.den : ℤ)

/-- Round to the nearest integer, ties to even: the behaviour of the
Python builtin round on an exactly represented value. -/
def roundHalfEven (q : ℚ) : ℤ :=
  let n := ratFloor q
  let frac := q - (n : ℚ)
  if frac < 1/2 then n
  else if (1 : ℚ)/2 < frac then n + 1
  else if n % 2 = 0 then n else n + 1

/-- Python round(x, 2) over exact rationals. -/
def pyRound2 (q : ℚ) : ℚ :=
  (roundHalfEven (q * 100) : ℚ) / 100

/-- routes/user.py book_spot, first query: the users open reservation,
Reservation.query.filter_by(user_id, leaving_timestamp=None).first(). -/
def firstOpenResvOfUser (s : Store) (u : Nat) : Option Reservation :=
  s.reservations.find? (fun r => r.user_id == u && r.leaving_timestamp.isNone)

/-- routes/user.py book_spot, second query: the first available spot,
ParkingSpot.query.filter_by(lot_id, status=A).first(). -/
def firstAvailableSpot (s : Store) (l : Nat) : Option ParkingSpot :=
  s.spots.find? (fun sp => sp.lot_id == l && sp.status == SpotStatus.A)

/-- Primary-key lookup of a spot (reservation.parking_spot). -/
def findSpotById (s : Store) (sid : Nat) : Option ParkingSpot :=
  s.spots.find? (fun sp => sp.id == sid)

/-- Price per hour of a lot, looked up by primary key
(parking_spot.parking_lot.price_per_hour); 0 on a dangling foreign
key, which cannot happen in a consistent store. -/
def priceOfLot (s : Store) (l : Nat) : ℚ :=
  match s.lots.find? (fun lot => lot.id == l) with
  | some lot => lot.price_per_hour
  | none => 0

/-- Number of open reservations referencing a spot. -/
def openSpotCount (s : Store) (sid : Nat) : Nat :=
  s.reservations.countP (fun r => r.spot_id == sid && r.leaving_timestamp.isNone)

/-- Number of open reservations held by a user. -/
def openUserCount (s : Store) (u : Nat) : Nat :=
  s.reservations.countP (fun r => r.user_id == u && r.leaving_timestamp.isNone)

/-- The open reservation row inserted by a successful booking on the
selected spot, at the next autoincrement key. -/
def bookResv (s : Store) (u : Nat) (now : ℚ) (sp : ParkingSpot) : Reservation :=
  { id := s.nextResvId, spot_id := sp.id, user_id := u,
    parking_timestamp := now, leaving_timestamp := none,
    parking_cost := none, duration_hours := none, remarks := none }

/-- The store committed by a successful booking: the selected spot
set to Occupied, the open reservation and a booking activity
appended. -/
def bookResult (s : Store) (u : Nat) (now : ℚ) (sp : ParkingSpot) : Store :=
  { s with
    spots := mapIfKey (fun x => x.id) sp.id
      (fun x => { x with status := SpotStatus.O }) s.spots,
    reservations := s.reservations ++ [bookResv s u now sp],
    activities := s.activities ++ [{ user_id := u, activity_type := ActivityType.booking }],
    nextResvId := s.nextResvId + 1 }

/-- routes/user.py book_spot: reject if the user already has an open
reservation, find the first available spot of the lot (no lot
existence check is performed), then in one commit create the open
reservation, set the spot to Occupied and append a booking activity. -/
def bookSpot (u l : Nat) (now : ℚ) (s : Store) : Store × Except ApiError Reservation :=
  match firstOpenResvOfUser s u with
  | some _ => (s, Except.error ApiError.AlreadyBooked)
  | none =>
    match firstAvailableSpot s l with
    | none => (s, Except.error ApiError.NoAvailability)
    | some sp => (bookResult s u now sp, Except.ok (bookResv s u now sp))

/-- models.py Reservation.calculate_cost applied after setting
leaving_timestamp = now: the raw duration in hours is the elapsed
seconds over 3600; duration_hours stores that value rounded to two
decimals, while parking_cost is round(duration * price, 2) computed
from the unrounded duration, at the given price per hour. -/
def closeResv (now price : ℚ) (r : Reservation) : Reservation :=
  let duration : ℚ := (now - r.parking_timestamp) / 3600
  { r with leaving_timestamp := some now,
           duration_hours := some (pyRound2 duration),
           parking_cost := some (pyRound2 (duration * price)) }

/-- The hourly price consulted by release_spot:
reservation.parking_spot.parking_lot.price_per_hour, looked up in the
store at release time. -/
def releasePrice (s : Store) (r : Reservation) : ℚ :=
  match findSpotById s r.spot_id with
  | some sp => priceOfLot s sp.lot_id
  | none => 0

/-- The store committed by a successful release: the reservation
closed in place, its spot set back to Available, a release activity
appended. -/
def releaseResult (s : Store) (rid u : Nat) (now : ℚ) (r : Reservation) : Store :=
  { s with
    reservations := mapIfKey (fun x => x.id) rid (closeResv now (releasePrice s r)) s.reservations,
    spots := mapIfKey (fun x => x.id) r.spot_id
      (fun x => { x with status := SpotStatus.A }) s.spots,
    activities := s.activities ++ [{ user_id := u, activity_type := ActivityType.release }] }

/-- routes/user.py release_spot: look the reservation up by primary
key (NotFound), check ownership (Unauthorized), check it is still
open (AlreadyReleased); then in one commit set the leaving timestamp,
compute duration and cost at the owning lots current price, set the
spot back to Available and append a release activity. -/
def releaseSpot (rid u : Nat) (now : ℚ) (s : Store) : Store × Except ApiError Reservation :=
  match s.reservations.find? (fun r => r.id == rid) with
  | none => (s, Except.error ApiError.NotFound)
  | some r =>
    if r.user_id ≠ u then (s, Except.error ApiError.Unauthorized)
    else if r.leaving_timestamp.isSome then (s, Except.error ApiError.AlreadyReleased)
    else (releaseResult s rid u now r, Except.ok (closeResv now (releasePrice s r) r))

/-- The spots inserted by a creation or grow loop: for k below count,
spot number base + 1 + k on the given lot, status Available, with
consecutive fresh primary keys starting at firstId.  This matches the
Python loop for i in range(base + 1, newCount + 1). -/
def freshSpots (lotId firstId base count : Nat) : List ParkingSpot :=
  (List.range count).map (fun k =>
    { id := firstId + k, lot_id := lotId, spot_number := base + 1 + k,
      status := SpotStatus.A })

/-- routes/admin.py create_parking_lot: insert the lot, then insert
spots numbered 1 to count, all Available, in one commit. -/
def createParkingLot (price : ℚ) (count : Nat) (s : Store) : Store × Except ApiError ParkingLot :=
  let lot : ParkingLot := { id := s.nextLotId, price_per_hour := price, number_of_spots := count }
  ({ s with
      lots := s.lots ++ [lot],
      spots := s.spots ++ freshSpots lot.id s.nextSpotId 0 count,
      nextLotId := s.nextLotId + 1,
      nextSpotId := s.nextSpotId + count },
   Except.ok lot)

/-- routes/admin.py update_parking_lot, restricted to the
number_of_spots branch (the other updated columns are presentation
fields with no interaction with the spot set, and on the error path
they are never committed).  Grow appends spots numbered from the
current count plus one; shrink deletes the first available spots in
row order, failing with CapacityConflict and no committed mutation
when fewer available spots exist than must be removed. -/
def updateLotCount (lotId newCount : Nat) (s : Store) : Store × Except ApiError ParkingLot :=
  match s.lots.find? (fun lot => lot.id == lotId) with
  | none => (s, Except.error ApiError.NotFound)
  | some lot =>
    if lot.number_of_spots < newCount then
      ({ s with
          lots := mapIfKey (fun x => x.id) lotId
            (fun x => { x with number_of_spots := newCount }) s.lots,
          spots := s.spots ++
            freshSpots lotId s.nextSpotId lot.number_of_spots (newCount - lot.number_of_spots),
          nextSpotId := s.nextSpotId + (newCount - lot.number_of_spots) },
       Except.ok { lot with number_of_spots := newCount })
    else if newCount < lot.number_of_spots then
      let need := lot.number_of_spots - newCount
      let toRemove :=
        (s.spots.filter (fun sp => sp.lot_id == lotId && sp.status == SpotStatus.A)).take need
      if toRemove.length < need then (s, Except.error ApiError.CapacityConflict)
      else
        ({ s with
            lots := mapIfKey (fun x => x.id) lotId
              (fun x => { x with number_of_spots := newCount }) s.lots,
            spots := s.spots.filter (fun sp => !(toRemove.any (fun t => t.id == sp.id))) },
         Except.ok { lot with number_of_spots := newCount })
    else (s, Except.ok lot)

/-- The label string of a spot as rendered by the source,
SPOT-lotid-iii with the index zero padded to three digits. -/
def pad3 (n : Nat) : String :=
  if n < 10 then "00" ++ toString n
  else if n < 100 then "0" ++ toString n
  else toString n

/-- Rendered spot_number string of the source, f-string
SPOT-lotid-i, i zero padded to width 3. -/
def spotLabel (sp : ParkingSpot) : String :=
  "SPOT-" ++ toString sp.lot_id ++ "-" ++ pad3 sp.spot_number

/-- One cell of the CSV export: either a number printed as such or a
piece of text. -/
inductive CsvCell
  | num (q : ℚ)
  | text (s : String)
deriving DecidableEq, Repr

/-- download_csv Duration column: the Python expression
r.duration_hours or the string N/A, so None and the number 0 both
render as N/A. -/
def durationCell (r : Reservation) : CsvCell :=
  match r.duration_hours with
  | none => CsvCell.text "N/A"
  | some d => if d = 0 then CsvCell.text "N/A" else CsvCell.num d

/-- download_csv Cost column: r.parking_cost or N/A, so None and 0
both render as N/A. -/
def costCell (r : Reservation) : CsvCell :=
  match r.parking_cost with
  | none => CsvCell.text "N/A"
  | some c => if c = 0 then CsvCell.text "N/A" else CsvCell.num c

/-- download_csv Status column. -/
def statusCell (r : Reservation) : CsvCell :=
  CsvCell.text (if r.leaving_timestamp.isSome then "Completed" else "Active")

/-- download_csv Leaving Time column: the formatted timestamp when
present (modelled as the numeric timestamp), the text Active when the
reservation is open. -/
def leavingCell (r : Reservation) : CsvCell :=
  match r.leaving_timestamp with
  | some t => CsvCell.num t
  | none => CsvCell.text "Active"

/-- Consistency of a store: spot primary keys strictly increase in
row order (autoincrement), reservation primary keys are distinct and
below the autoincrement counter, every open reservation references an
existing spot, every spot is Occupied exactly when one open
reservation references it and Available exactly when none does, and
no user holds two open reservations. -/
def Consistent (s : Store) : Prop :=
  List.Pairwise (· < ·) (s.spots.map (fun sp => sp.id))
  ∧ (s.reservations.map (fun r => r.id)).Nodup
  ∧ (∀ r ∈ s.reservations, r.leaving_timestamp = none → ∃ sp ∈ s.spots, sp.id = r.spot_id)
  ∧ (∀ r ∈ s.reservations, r.id < s.nextResvId)
  ∧ (∀ sp ∈ s.spots,
      (sp.status = SpotStatus.O ↔ openSpotCount s sp.id = 1)
      ∧ (sp.status = SpotStatus.A ↔ openSpotCount s sp.id = 0))
  ∧ (∀ r ∈ s.reservations, openUserCount s r.user_id ≤ 1)

instance decidableConsistent (s : Store) : Decidable (Consistent s) := by
  unfold Consistent
  infer_instance

/-- States reachable from a given state by the two core user
operations, booking and release, with arbitrary parameters. -/
inductive Reach : Store → Store → Prop
  | refl (s : Store) : Reach s s
  | book (u l : Nat) (now : ℚ) {s₀ s : Store} (h : Reach s₀ s) :
      Reach s₀ (bookSpot u l now s).1
  | free (rid u : Nat) (now : ℚ) {s₀ s : Store} (h : Reach s₀ s) :
      Reach s₀ (releaseSpot rid u now s).1

def emptyStore : Store :=
  { lots := [], spots := [], reservations := [], activities := [],
    nextLotId := 1, nextSpotId := 1, nextResvId := 1 }

lemma mapIfKey_map_key {α : Type} (key : α → Nat) (k : Nat) (f : α → α)
    (hf : ∀ x, key (f x) = key x) (l : List α) :
    (mapIfKey key k f l).map key = l.map key := by
  unfold mapIfKey
  rw [List.map_map]
  apply List.map_congr_left
  intro a _
  by_cases h : key a = k
  · simp [Function.comp, h, hf]
  · simp [Function.comp, h]

lemma mapIfKey_eq_self {α : Type} (key : α → Nat) (k : Nat) (f : α → α) (l : List α)
    (h : ∀ x ∈ l, key x ≠ k) : mapIfKey key k f l = l := by
  unfold mapIfKey
  conv_rhs => rw [← List.map_id l]
  apply List.map_congr_left
  intro a ha
  simp [h a ha]

lemma countP_mapIfKey {α : Type} (key : α → Nat) (f : α → α)
    (hf : ∀ x, key (f x) = key x) (p : α → Bool) :
    ∀ l : List α, (l.map key).Nodup → ∀ a ∈ l,
      (mapIfKey key (key a) f l).countP p + (if p a then 1 else 0)
        = l.countP p + (if p (f a) then 1 else 0) := by
  intro l
  induction l with
  | nil =>
    intro _ a ha
    exact absurd ha (List.not_mem_nil a)
  | cons b t ih =>
    intro hnd a ha
    rw [List.map_cons, List.nodup_cons] at hnd
    rcases List.mem_cons.mp ha with rfl | hat
    · have htail : mapIfKey key (key a) f t = t := by
        apply mapIfKey_eq_self
        intro x hx hkey
        exact hnd.1 (hkey ▸ List.mem_map_of_mem key hx)
      unfold mapIfKey at htail ⊢
      simp only [List.map_cons, if_pos rfl]
      rw [htail, List.countP_cons, List.countP_cons]
      cases hpa : p a <;> cases hpf : p (f a) <;> simp [hpa, hpf]
    · have hkba : key b ≠ key a := fun h => hnd.1 (h ▸ List.mem_map_of_mem key hat)
      have hrec := ih hnd.2 a hat
      unfold mapIfKey at hrec ⊢
      simp only [List.map_cons, if_neg hkba]
      rw [List.countP_cons, List.countP_cons]
      cases hpa : p a <;> cases hpb : p b <;> cases hpf : p (f a) <;>
        simp [hpa, hpb, hpf] at hrec ⊢ <;> omega

lemma find?_key_mapIfKey {α : Type} (key : α → Nat) (k m : Nat) (f : α → α)
    (hf : ∀ x, key (f x) = key x) (l : List α) :
    (mapIfKey key k f l).find? (fun x => key x == m)
      = (l.find? (fun x => key x == m)).map (fun x => if key x = k then f x else x) := by
  induction l with
  | nil => rfl
  | cons b t ih =>
    unfold mapIfKey at ih ⊢
    simp only [List.map_cons, List.find?_cons]
    have hhead : key (if key b = k then f b else b) = key b := by
      by_cases hbk : key b = k
      · rw [if_pos hbk, hf]
      · rw [if_neg hbk]
    rw [hhead]
    by_cases hbm : key b = m
    · simp [hbm]
    · simp only [beq_eq_false_iff_ne.mpr hbm]
      exact ih

lemma find?_min_id (p : ParkingSpot → Bool) :
    ∀ l : List ParkingSpot, List.Pairwise (· < ·) (l.map (fun sp => sp.id)) →
      ∀ a, l.find? p = some a → ∀ b ∈ l, p b = true → a.id ≤ b.id := by
  intro l
  induction l with
  | nil =>
    intro _ a ha
    simp at ha
  | cons c t ih =>
    intro hpw a ha b hb hpb
    rw [List.map_cons, List.pairwise_cons] at hpw
    by_cases hpc : p c = true
    · rw [List.find?_cons_of_pos _ hpc] at ha
      cases ha
      rcases List.mem_cons.mp hb with rfl | hbt
      · exact le_refl _
      · exact le_of_lt (hpw.1 _ (List.mem_map_of_mem _ hbt))
    · rw [List.find?_cons_of_neg _ hpc] at ha
      rcases List.mem_cons.mp hb with rfl | hbt
      · exact absurd hpb hpc
      · exact ih hpw.2 a ha b hbt hpb

lemma key_inj {α : Type} (key : α → Nat) :
    ∀ l : List α, (l.map key).Nodup → ∀ a ∈ l, ∀ b ∈ l, key a = key b → a = b := by
  intro l
  induction l with
  | nil =>
    intro _ a ha
    exact absurd ha (List.not_mem_nil a)
  | cons c t ih =>
    intro hnd a ha b hb hk
    rw [List.map_cons, List.nodup_cons] at hnd
    rcases List.mem_cons.mp ha with rfl | hat
    · rcases List.mem_cons.mp hb with rfl | hbt
      · rfl
      · exfalso
        apply hnd.1
        rw [hk]
        exact List.mem_map_of_mem key hbt
    · rcases List.mem_cons.mp hb with rfl | hbt
      · exfalso
        apply hnd.1
        rw [← hk]
        exact List.mem_map_of_mem key hat
      · exact ih hnd.2 a hat b hbt hk

lemma statusCases (st : SpotStatus) : st = SpotStatus.A ∨ st = SpotStatus.O := by
  cases st
  · exact Or.inl rfl
  · exact Or.inr rfl

lemma exists_mem_mapIfKey {α : Type} (key : α → Nat) (k : Nat) (f : α → α)
    (hf : ∀ x, key (f x) = key x) (l : List α) (y : α) (hy : y ∈ l) :
    ∃ z ∈ mapIfKey key k f l, key z = key y := by
  unfold mapIfKey
  refine ⟨if key y = k then f y else y, List.mem_map_of_mem _ hy, ?_⟩
  by_cases h : key y = k <;> simp [h, hf]

lemma openSpotCount_bookResult (s : Store) (u : Nat) (now : ℚ) (sp : ParkingSpot)
    (sid : Nat) :
    openSpotCount (bookResult s u now sp) sid
      = openSpotCount s sid + (if sp.id = sid then 1 else 0) := by
  simp only [openSpotCount, bookResult, bookResv, List.countP_append, List.countP_cons,
    List.countP_nil]
  by_cases hs : sp.id = sid <;> simp [hs]

lemma openUserCount_bookResult (s : Store) (u : Nat) (now : ℚ) (sp : ParkingSpot)
    (w : Nat) :
    openUserCount (bookResult s u now sp) w
      = openUserCount s w + (if u = w then 1 else 0) := by
  simp only [openUserCount, bookResult, bookResv, List.countP_append, List.countP_cons,
    List.countP_nil]
  by_cases hw : u = w <;> simp [hw]

lemma openSpotCount_releaseResult (s : Store) (rid u : Nat) (now : ℚ) (r : Reservation)
    (hnd : (s.reservations.map (fun x => x.id)).Nodup)
    (hmem : r ∈ s.reservations) (hid : r.id = rid)
    (hopen : r.leaving_timestamp = none) (sid : Nat) :
    openSpotCount (releaseResult s rid u now r) sid + (if r.spot_id = sid then 1 else 0)
      = openSpotCount s sid := by
  have h := countP_mapIfKey (fun x : Reservation => x.id)
    (closeResv now (releasePrice s r)) (fun x => rfl)
    (fun x => x.spot_id == sid && x.leaving_timestamp.isNone)
    s.reservations hnd r hmem
  have hb : ((fun x : Reservation => x.id) r) = rid := hid
  rw [hb] at h
  simp only [openSpotCount, releaseResult]
  by_cases hsid : r.spot_id = sid <;>
    simp [hsid, hopen, closeResv] at h ⊢ <;> omega

lemma openUserCount_releaseResult (s : Store) (rid u : Nat) (now : ℚ) (r : Reservation)
    (hnd : (s.reservations.map (fun x => x.id)).Nodup)
    (hmem : r ∈ s.reservations) (hid : r.id = rid)
    (hopen : r.leaving_timestamp = none) (w : Nat) :
    openUserCount (releaseResult s rid u now r) w + (if r.user_id = w then 1 else 0)
      = openUserCount s w := by
  have h := countP_mapIfKey (fun x : Reservation => x.id)
    (closeResv now (releasePrice s r)) (fun x => rfl)
    (fun x => x.user_id == w && x.leaving_timestamp.isNone)
    s.reservations hnd r hmem
  have hb : ((fun x : Reservation => x.id) r) = rid := hid
  rw [hb] at h
  simp only [openUserCount, releaseResult]
  by_cases hw : r.user_id = w <;>
    simp [hw, hopen, closeResv] at h ⊢ <;> omega

lemma consistent_book_core (s : Store) (u : Nat) (now : ℚ) (sp : ParkingSpot)
    (hC : Consistent s)
    (hfo : firstOpenResvOfUser s u = none)
    (hspA : sp.status = SpotStatus.A) (hmem : sp ∈ s.spots) :
    Consistent (bookResult s u now sp) := by
  obtain ⟨hPW, hND, hFK, hFresh, hSI, hUI⟩ := hC
  have hNDspots : (s.spots.map (fun z => z.id)).Nodup := hPW.imp Nat.ne_of_lt
  have hzero : openSpotCount s sp.id = 0 := (hSI sp hmem).2.mp hspA
  have huzero : openUserCount s u = 0 := by
    unfold firstOpenResvOfUser at hfo
    rw [List.find?_eq_none] at hfo
    unfold openUserCount
    rw [List.countP_eq_zero]
    exact hfo
  refine ⟨?_, ?_, ?_, ?_, ?_, ?_⟩
  · show List.Pairwise (· < ·) ((mapIfKey (fun x => x.id) sp.id
      (fun x => { x with status := SpotStatus.O }) s.spots).map (fun z => z.id))
    rw [mapIfKey_map_key (fun x : ParkingSpot => x.id) sp.id
      (fun x => { x with status := SpotStatus.O }) (fun x => rfl) s.spots]
    exact hPW
  · show ((s.reservations ++ [bookResv s u now sp]).map (fun z => z.id)).Nodup
    rw [List.map_append, List.nodup_append]
    refine ⟨hND, by simp, ?_⟩
    intro x hx hx2
    simp only [List.map_cons, List.map_nil, List.mem_singleton] at hx2
    rw [List.mem_map] at hx
    obtain ⟨rr, hrr, hrid⟩ := hx
    have hlt := hFresh rr hrr
    have hx3 : x = (bookResv s u now sp).id := hx2
    have hx4 : x = s.nextResvId := hx3
    have hrid2 : rr.id = x := hrid
    omega
  · intro r' hr' hopen'
    simp only [bookResult, List.mem_append, List.mem_singleton] at hr'
    rcases hr' with hr' | rfl
    · obtain ⟨sp₂, hsp₂, hid₂⟩ := hFK r' hr' hopen'
      obtain ⟨z, hz, hzid⟩ := exists_mem_mapIfKey (fun x : ParkingSpot => x.id) sp.id
        (fun x => { x with status := SpotStatus.O }) (fun x => rfl) s.spots sp₂ hsp₂
      have hz2 : z.id = sp₂.id := hzid
      exact ⟨z, hz, by rw [hz2, hid₂]⟩
    · obtain ⟨z, hz, hzid⟩ := exists_mem_mapIfKey (fun x : ParkingSpot => x.id) sp.id
        (fun x => { x with status := SpotStatus.O }) (fun x => rfl) s.spots sp hmem
      have hz2 : z.id = sp.id := hzid
      exact ⟨z, hz, hz2⟩
  · intro r' hr'
    simp only [bookResult, List.mem_append, List.mem_singleton] at hr'
    show r'.id < s.nextResvId + 1
    rcases hr' with hr' | rfl
    · have := hFresh r' hr'
      omega
    · show (bookResv s u now sp).id < s.nextResvId + 1
      simp only [bookResv]
      omega
  · intro x' hx'
    simp only [bookResult, mapIfKey, List.mem_map] at hx'
    obtain ⟨y, hy, hyx⟩ := hx'
    by_cases hcase : y.id = sp.id
    · have hysp : y = sp := key_inj (fun z => z.id) s.spots hNDspots y hy sp hmem hcase
      subst hysp
      rw [if_pos rfl] at hyx
      subst hyx
      constructor
      · constructor
        · intro _
          rw [show ({ y with status := SpotStatus.O } : ParkingSpot).id = y.id from rfl,
            openSpotCount_bookResult]
          simp [hzero]
        · intro _
          rfl
      · constructor
        · intro hA
          exact absurd hA (by simp)
        · intro h0
          rw [show ({ y with status := SpotStatus.O } : ParkingSpot).id = y.id from rfl,
            openSpotCount_bookResult] at h0
          simp [hzero] at h0
    · rw [if_neg hcase] at hyx
      subst hyx
      have hcy := hSI y hy
      have hkeep : openSpotCount (bookResult s u now sp) y.id = openSpotCount s y.id := by
        rw [openSpotCount_bookResult]
        have hne : ¬sp.id = y.id := fun h => hcase h.symm
        simp [hne]
      rw [hkeep]
      exact hcy
  · intro r' hr'
    simp only [bookResult, List.mem_append, List.mem_singleton] at hr'
    rcases hr' with hr' | rfl
    · show openUserCount (bookResult s u now sp) r'.user_id ≤ 1
      rw [openUserCount_bookResult]
      by_cases hw : u = r'.user_id
      · rw [if_pos hw, ← hw, huzero]
      · rw [if_neg hw]
        have := hUI r' hr'
        omega
    · show openUserCount (bookResult s u now sp) (bookResv s u now sp).user_id ≤ 1
      rw [show (bookResv s u now sp).user_id = u from rfl, openUserCount_bookResult]
      simp [huzero]

lemma consistent_release_core (s : Store) (rid u : Nat) (now : ℚ) (r : Reservation)
    (hC : Consistent s)
    (hfind : s.reservations.find? (fun x => x.id == rid) = some r)
    (hopen : r.leaving_timestamp = none) :
    Consistent (releaseResult s rid u now r) := by
  obtain ⟨hPW, hND, hFK, hFresh, hSI, hUI⟩ := hC
  have hNDspots : (s.spots.map (fun z => z.id)).Nodup := hPW.imp Nat.ne_of_lt
  have hmem : r ∈ s.reservations := List.mem_of_find?_eq_some hfind
  have hid : r.id = rid := by
    have := List.find?_some hfind
    rwa [beq_iff_eq] at this
  have hcount := openSpotCount_releaseResult s rid u now r hND hmem hid hopen
  have hucount := openUserCount_releaseResult s rid u now r hND hmem hid hopen
  refine ⟨?_, ?_, ?_, ?_, ?_, ?_⟩
  · show List.Pairwise (· < ·) ((mapIfKey (fun x => x.id) r.spot_id
      (fun x => { x with status := SpotStatus.A }) s.spots).map (fun z => z.id))
    rw [mapIfKey_map_key (fun x : ParkingSpot => x.id) r.spot_id
      (fun x => { x with status := SpotStatus.A }) (fun x => rfl) s.spots]
    exact hPW
  · show ((mapIfKey (fun x => x.id) rid (closeResv now (releasePrice s r))
      s.reservations).map (fun z => z.id)).Nodup
    rw [mapIfKey_map_key (fun x : Reservation => x.id) rid
      (closeResv now (releasePrice s r)) (fun x => rfl) s.reservations]
    exact hND
  · intro r' hr' hopen'
    simp only [releaseResult, mapIfKey, List.mem_map] at hr'
    obtain ⟨y, hy, hyx⟩ := hr'
    by_cases hcase : y.id = rid
    · rw [if_pos hcase] at hyx
      rw [← hyx] at hopen'
      simp [closeResv] at hopen'
    · rw [if_neg hcase] at hyx
      rw [← hyx] at hopen' ⊢
      obtain ⟨sp₂, hsp₂, hid₂⟩ := hFK y hy hopen'
      obtain ⟨z, hz, hzid⟩ := exists_mem_mapIfKey (fun x : ParkingSpot => x.id) r.spot_id
        (fun x => { x with status := SpotStatus.A }) (fun x => rfl) s.spots sp₂ hsp₂
      have hz2 : z.id = sp₂.id := hzid
      exact ⟨z, hz, by rw [hz2, hid₂]⟩
  · intro r' hr'
    simp only [releaseResult, mapIfKey, List.mem_map] at hr'
    obtain ⟨y, hy, hyx⟩ := hr'
    show r'.id < s.nextResvId
    rw [← hyx]
    by_cases hcase : y.id = rid
    · rw [if_pos hcase]
      show (closeResv now (releasePrice s r) y).id < s.nextResvId
      rw [show (closeResv now (releasePrice s r) y).id = y.id from rfl]
      exact hFresh y hy
    · rw [if_neg hcase]
      exact hFresh y hy
  · intro x' hx'
    simp only [releaseResult, mapIfKey, List.mem_map] at hx'
    obtain ⟨y, hy, hyx⟩ := hx'
    have hrpos : 1 ≤ openSpotCount s r.spot_id := by
      have : 0 < openSpotCount s r.spot_id := by
        unfold openSpotCount
        rw [List.countP_pos_iff]
        exact ⟨r, hmem, by simp [hopen]⟩
      omega
    by_cases hcase : y.id = r.spot_id
    · rw [if_pos hcase] at hyx
      rw [← hyx]
      have hySI := hSI y hy
      have hyO : y.status = SpotStatus.O := by
        rcases statusCases y.status with hA | hO
        · have h0 := hySI.2.mp hA
          rw [hcase] at h0
          omega
        · exact hO
      have h1 : openSpotCount s y.id = 1 := hySI.1.mp hyO
      have hnew : openSpotCount (releaseResult s rid u now r) y.id = 0 := by
        have hc := hcount y.id
        rw [if_pos hcase.symm] at hc
        omega
      constructor
      · constructor
        · intro hO2
          exact absurd hO2 (by simp)
        · intro h1'
          rw [show ({ y with status := SpotStatus.A } : ParkingSpot).id = y.id from rfl,
            hnew] at h1'
          exact absurd h1' (by decide)
      · constructor
        · intro _
          show openSpotCount (releaseResult s rid u now r) y.id = 0
          exact hnew
        · intro _
          rfl
    · rw [if_neg hcase] at hyx
      rw [← hyx]
      have hySI := hSI y hy
      have hkeep : openSpotCount (releaseResult s rid u now r) y.id
          = openSpotCount s y.id := by
        have hc := hcount y.id
        rw [if_neg (fun h => hcase h.symm)] at hc
        omega
      rw [hkeep]
      exact hySI
  · intro r' hr'
    simp only [releaseResult, mapIfKey, List.mem_map] at hr'
    obtain ⟨y, hy, hyx⟩ := hr'
    have huy : r'.user_id = y.user_id := by
      rw [← hyx]
      by_cases hcase : y.id = rid
      · rw [if_pos hcase]
        rfl
      · rw [if_neg hcase]
    show openUserCount (releaseResult s rid u now r) r'.user_id ≤ 1
    rw [huy]
    have hc := hucount y.user_id
    have hold := hUI y hy
    by_cases hru : r.user_id = y.user_id
    · rw [if_pos hru] at hc
      omega
    · rw [if_neg hru] at hc
      omega

lemma consistent_bookSpot (u l : Nat) (now : ℚ) (s : Store) (hC : Consistent s) :
    Consistent (bookSpot u l now s).1 := by
  rcases hfo : firstOpenResvOfUser s u with _ | r₀
  · rcases hfa : firstAvailableSpot s l with _ | sp
    · simp only [bookSpot, hfo, hfa]
      exact hC
    · simp only [bookSpot, hfo, hfa]
      have hpred := List.find?_some hfa
      rw [Bool.and_eq_true, beq_iff_eq, beq_iff_eq] at hpred
      exact consistent_book_core s u now sp hC hfo hpred.2 (List.mem_of_find?_eq_some hfa)
  · simp only [bookSpot, hfo]
    exact hC

lemma consistent_releaseSpot (rid u : Nat) (now : ℚ) (s : Store) (hC : Consistent s) :
    Consistent (releaseSpot rid u now s).1 := by
  rcases hfind : s.reservations.find? (fun x => x.id == rid) with _ | r₀
  · simp only [releaseSpot, hfind]
    exact hC
  · by_cases huser : r₀.user_id ≠ u
    · simp only [releaseSpot, hfind, if_pos huser]
      exact hC
    · by_cases hsome : r₀.leaving_timestamp.isSome = true
      · simp only [releaseSpot, hfind, if_neg huser, if_pos hsome]
        exact hC
      · have hopen : r₀.leaving_timestamp = none := by
          rcases hl : r₀.leaving_timestamp with _ | t
          · rfl
          · rw [hl] at hsome
            simp at hsome
        simp only [releaseSpot, hfind, if_neg huser, if_neg hsome]
        exact consistent_release_core s rid u now r₀ hC hfind hopen

lemma consistent_reach (s₀ s : Store) (h₀ : Consistent s₀) (h : Reach s₀ s) :
    Consistent s := by
  induction h with
  | refl _ => exact h₀
  | book u l now h ih => exact consistent_bookSpot u l now _ (ih h₀)
  | free rid u now h ih => exact consistent_releaseSpot rid u now _ (ih h₀)

lemma bookResult_post (s : Store) (u l : Nat) (now : ℚ) (sp : ParkingSpot)
    (hC : Consistent s) (hfa : firstAvailableSpot s l = some sp) :
    bookResv s u now sp ∈ (bookResult s u now sp).reservations
    ∧ (bookResv s u now sp).leaving_timestamp = none
    ∧ ∃ z ∈ (bookResult s u now sp).spots, z.id = (bookResv s u now sp).spot_id
        ∧ z.status = SpotStatus.O ∧ openSpotCount (bookResult s u now sp) z.id = 1 := by
  have hmem : sp ∈ s.spots := List.mem_of_find?_eq_some hfa
  have hpred := List.find?_some hfa
  rw [Bool.and_eq_true, beq_iff_eq, beq_iff_eq] at hpred
  have hzero : openSpotCount s sp.id = 0 := (hC.2.2.2.2.1 sp hmem).2.mp hpred.2
  refine ⟨?_, rfl, ?_⟩
  · show bookResv s u now sp ∈ s.reservations ++ [bookResv s u now sp]
    rw [List.mem_append]
    exact Or.inr (List.mem_singleton.mpr rfl)
  · refine ⟨{ sp with status := SpotStatus.O }, ?_, rfl, rfl, ?_⟩
    · exact List.mem_map.mpr ⟨sp, hmem, by simp⟩
    · show openSpotCount (bookResult s u now sp) sp.id = 1
      rw [openSpotCount_bookResult]
      simp [hzero]

lemma releaseResult_post (s : Store) (rid u : Nat) (now : ℚ) (r : Reservation)
    (hC : Consistent s)
    (hfind : s.reservations.find? (fun x => x.id == rid) = some r)
    (hopen : r.leaving_timestamp = none) :
    (closeResv now (releasePrice s r) r).leaving_timestamp = some now
    ∧ ∃ z ∈ (releaseResult s rid u now r).spots,
        z.id = (closeResv now (releasePrice s r) r).spot_id
        ∧ z.status = SpotStatus.A
        ∧ openSpotCount (releaseResult s rid u now r) z.id = 0 := by
  have hmem : r ∈ s.reservations := List.mem_of_find?_eq_some hfind
  have hid : r.id = rid := by
    have := List.find?_some hfind
    rwa [beq_iff_eq] at this
  have hcount := openSpotCount_releaseResult s rid u now r
    (hC.2.1) hmem hid hopen
  obtain ⟨sp₂, hsp₂, hid₂⟩ := hC.2.2.1 r hmem hopen
  refine ⟨rfl, { sp₂ with status := SpotStatus.A }, ?_, ?_, rfl, ?_⟩
  · exact List.mem_map.mpr ⟨sp₂, hsp₂, by simp [hid₂]⟩
  · show sp₂.id = r.spot_id
    exact hid₂
  · show openSpotCount (releaseResult s rid u now r) sp₂.id = 0
    have hrpos : 0 < openSpotCount s sp₂.id := by
      unfold openSpotCount
      rw [List.countP_pos_iff]
      exact ⟨r, hmem, by simp [hopen, hid₂]⟩
    have hsO : sp₂.status = SpotStatus.O := by
      rcases statusCases sp₂.status with hA | hO
      · have h0 := (hC.2.2.2.2.1 sp₂ hsp₂).2.mp hA
        omega
      · exact hO
    have h1 : openSpotCount s sp₂.id = 1 := (hC.2.2.2.2.1 sp₂ hsp₂).1.mp hsO
    have hc := hcount sp₂.id
    rw [if_pos hid₂.symm] at hc
    omega

/-- One lot at price 10 with a single available spot and no
reservations. -/
def lotFreeStore : Store :=
  { lots := [{ id := 1, price_per_hour := 10, number_of_spots := 1 }],
    spots := [{ id := 1, lot_id := 1, spot_number := 1, status := SpotStatus.A }],
    reservations := [], activities := [],
    nextLotId := 2, nextSpotId := 2, nextResvId := 1 }

/-- One lot at price 10 whose single spot is occupied under an open
reservation held by user 7 since time 0. -/
def bookedStore : Store :=
  { lots := [{ id := 1, price_per_hour := 10, number_of_spots := 1 }],
    spots := [{ id := 1, lot_id := 1, spot_number := 1, status := SpotStatus.O }],
    reservations := [{ id := 1, spot_id := 1, user_id := 7, parking_timestamp := 0,
                       leaving_timestamp := none, parking_cost := none,
                       duration_hours := none, remarks := none }],
    activities := [],
    nextLotId := 2, nextSpotId := 2, nextResvId := 2 }

/-- Like bookedStore but at price 100: the store of the cost
counterexample. -/
def costCounterStore : Store :=
  { lots := [{ id := 1, price_per_hour := 100, number_of_spots := 1 }],
    spots := [{ id := 1, lot_id := 1, spot_number := 1, status := SpotStatus.O }],
    reservations := [{ id := 1, spot_id := 1, user_id := 7, parking_timestamp := 0,
                       leaving_timestamp := none, parking_cost := none,
                       duration_hours := none, remarks := none }],
    activities := [],
    nextLotId := 2, nextSpotId := 2, nextResvId := 2 }

/-- One lot with three spots whose first spot is occupied and the
other two available (spot ids and numbers ascending). -/
def orderedSpotsStore : Store :=
  { lots := [{ id := 1, price_per_hour := 10, number_of_spots := 3 }],
    spots := [{ id := 1, lot_id := 1, spot_number := 1, status := SpotStatus.O },
              { id := 2, lot_id := 1, spot_number := 2, status := SpotStatus.A },
              { id := 3, lot_id := 1, spot_number := 3, status := SpotStatus.A }],
    reservations := [], activities := [],
    nextLotId := 2, nextSpotId := 4, nextResvId := 1 }

/-- One lot whose two spots are both occupied. -/
def fullLotStore : Store :=
  { lots := [{ id := 1, price_per_hour := 10, number_of_spots := 2 }],
    spots := [{ id := 1, lot_id := 1, spot_number := 1, status := SpotStatus.O },
              { id := 2, lot_id := 1, spot_number := 2, status := SpotStatus.O }],
    reservations := [], activities := [],
    nextLotId := 2, nextSpotId := 3, nextResvId := 1 }

/-- One lot with five spots, the first three occupied, the last two
available: the shrink conflict example of the specification. -/
def shrinkConflictStore : Store :=
  { lots := [{ id := 1, price_per_hour := 10, number_of_spots := 5 }],
    spots := [{ id := 1, lot_id := 1, spot_number := 1, status := SpotStatus.O },
              { id := 2, lot_id := 1, spot_number := 2, status := SpotStatus.O },
              { id := 3, lot_id := 1, spot_number := 3, status := SpotStatus.O },
              { id := 4, lot_id := 1, spot_number := 4, status := SpotStatus.A },
              { id := 5, lot_id := 1, spot_number := 5, status := SpotStatus.A }],
    reservations := [], activities := [],
    nextLotId := 2, nextSpotId := 6, nextResvId := 1 }

/-- One lot with two available spots numbered 1 and 2, ready to be
grown. -/
def growDemoStore : Store :=
  { lots := [{ id := 1, price_per_hour := 10, number_of_spots := 2 }],
    spots := [{ id := 1, lot_id := 1, spot_number := 1, status := SpotStatus.A },
              { id := 2, lot_id := 1, spot_number := 2, status := SpotStatus.A }],
    reservations := [], activities := [],
    nextLotId := 2, nextSpotId := 3, nextResvId := 1 }

/-- State after creating a three spot lot in the empty store. -/
def shrinkGrowStore1 : Store := (createParkingLot 10 3 emptyStore).1

/-- State after then shrinking the lot to two spots (the first
available spot, numbered 1, is deleted). -/
def shrinkGrowStore2 : Store := (updateLotCount 1 2 shrinkGrowStore1).1

/-- State after then growing the lot back to three spots: the new
spot is numbered 3 although a spot numbered 3 survived the shrink. -/
def shrinkGrowStore3 : Store := (updateLotCount 1 3 shrinkGrowStore2).1

/-- C3, counterexample.  Releasing a 21 second reservation on a lot
priced 100 per hour records duration_hours = 0.01 (the rounded
duration) but parking_cost = 0.58, computed from the unrounded
duration; the formula of the claim, round(durationHours * price, 2)
applied to the rounded durationHours, would give 1.00 instead. -/
theorem release_cost_rounding_counterexample :
    (releaseSpot 1 7 21 costCounterStore).2 =
      Except.ok { id := 1, spot_id := 1, user_id := 7, parking_timestamp := 0,
                  leaving_timestamp := some 21, parking_cost := some (29/50),
                  duration_hours := some (1/100), remarks := none }
    ∧ pyRound2 ((21 : ℚ) / 3600) = 1/100
    ∧ pyRound2 ((1 : ℚ)/100 * 100) = 1
    ∧ (29 : ℚ)/50 ≠ 1 := by decide

/-- C3, amended.  A successful release at time now of an open
reservation found by primary key sets durationHours to the elapsed
seconds over 3600 rounded to two decimals, and sets cost to
round(rawDuration * pricePerHour, 2) computed from the UNROUNDED
duration, where pricePerHour is the owning lots price in the store at
release time (not a price snapshot from booking time).  On the
90 minute, price 10 example both readings agree: duration 1.5,
cost 15.00 (see the witness). -/
theorem release_cost_formula
    (s : Store) (rid u : Nat) (now : ℚ) (r : Reservation) (sp : ParkingSpot)
    (lot : ParkingLot)
    (hr : s.reservations.find? (fun x => x.id == rid) = some r)
    (hu : r.user_id = u) (hopen : r.leaving_timestamp = none)
    (hsp : findSpotById s r.spot_id = some sp)
    (hlot : s.lots.find? (fun x => x.id == sp.lot_id) = some lot) :
    (releaseSpot rid u now s).2 = Except.ok
      { r with leaving_timestamp := some now,
               duration_hours := some (pyRound2 ((now - r.parking_timestamp) / 3600)),
               parking_cost :=
                 some (pyRound2 (((now - r.parking_timestamp) / 3600) * lot.price_per_hour)) } := by
  simp [releaseSpot, hr, hu, hopen, hsp, priceOfLot, hlot, closeResv, releasePrice]

/-- C3, witness: booking at time 0 and releasing at 5400 seconds
(90 minutes) at price 10 per hour yields duration 1.5 and cost 15. -/
theorem release_cost_formula_witness :
    (releaseSpot 1 7 5400 bookedStore).2 = Except.ok
      { id := 1, spot_id := 1, user_id := 7, parking_timestamp := 0,
        leaving_timestamp := some 5400,
        duration_hours := some (pyRound2 (((5400 : ℚ) - 0) / 3600)),
        parking_cost := some (pyRound2 ((((5400 : ℚ) - 0) / 3600) * 10)),
        remarks := none }
    ∧ pyRound2 (((5400 : ℚ) - 0) / 3600) = 3/2
    ∧ pyRound2 ((((5400 : ℚ) - 0) / 3600) * 10) = 15 :=
  ⟨release_cost_formula bookedStore 1 7 5400
      { id := 1, spot_id := 1, user_id := 7, parking_timestamp := 0,
        leaving_timestamp := none, parking_cost := none,
        duration_hours := none, remarks := none }
      { id := 1, lot_id := 1, spot_number := 1, status := SpotStatus.O }
      { id := 1, price_per_hour := 10, number_of_spots := 1 }
      (by decide) (by decide) (by decide) (by decide) (by decide),
   by decide, by decide⟩

/-- C5.  For a user with no open reservation and an existing lot none
of whose spots is Available, book_spot answers NoAvailability and the
store is returned unchanged (nothing was added to the session before
the early return).  The lot existence hypothesis is not consulted by
the code, which never queries the lot table. -/
theorem book_full_lot_no_availability
    (s : Store) (u l : Nat) (now : ℚ)
    (hno : ∀ r ∈ s.reservations, r.user_id = u → r.leaving_timestamp ≠ none)
    (hlot : ∃ lot ∈ s.lots, lot.id = l)
    (hfull : ∀ sp ∈ s.spots, sp.lot_id = l → sp.status ≠ SpotStatus.A) :
    bookSpot u l now s = (s, Except.error ApiError.NoAvailability) := by
  have h1 : firstOpenResvOfUser s u = none := by
    unfold firstOpenResvOfUser
    rw [List.find?_eq_none]
    intro r hr hc
    rw [Bool.and_eq_true, beq_iff_eq, Option.isNone_iff_eq_none] at hc
    exact hno r hr hc.1 hc.2
  have h2 : firstAvailableSpot s l = none := by
    unfold firstAvailableSpot
    rw [List.find?_eq_none]
    intro sp hsp hc
    rw [Bool.and_eq_true, beq_iff_eq, beq_iff_eq] at hc
    exact hfull sp hsp hc.1 hc.2
  unfold bookSpot
  rw [h1, h2]

/-- C5, witness: both spots of the lot occupied, user 7 idle. -/
theorem book_full_lot_no_availability_witness :
    (∀ r ∈ fullLotStore.reservations, r.user_id = 7 → r.leaving_timestamp ≠ none)
    ∧ bookSpot 7 1 0 fullLotStore = (fullLotStore, Except.error ApiError.NoAvailability) :=
  ⟨by decide,
   book_full_lot_no_availability fullLotStore 7 1 0 (by decide)
     ⟨{ id := 1, price_per_hour := 10, number_of_spots := 2 }, by decide, by decide⟩
     (by decide)⟩

/-- C9.  book_spot performs no lot existence check: for a lot id that
matches no lot (hence, by foreign key integrity, no spot), a user
with no open reservation receives the same NoAvailability outcome as
for a full lot (the 404 with message No available spots in this
parking lot), not NotFound, and the store is unchanged. -/
theorem book_missing_lot_no_availability
    (s : Store) (u l : Nat) (now : ℚ)
    (hno : ∀ r ∈ s.reservations, r.user_id = u → r.leaving_timestamp ≠ none)
    (hnolot : ∀ lot ∈ s.lots, lot.id ≠ l)
    (hnospot : ∀ sp ∈ s.spots, sp.lot_id ≠ l) :
    bookSpot u l now s = (s, Except.error ApiError.NoAvailability)
    ∧ ApiError.NoAvailability ≠ ApiError.NotFound := by
  refine ⟨?_, by decide⟩
  have h1 : firstOpenResvOfUser s u = none := by
    unfold firstOpenResvOfUser
    rw [List.find?_eq_none]
    intro r hr hc
    rw [Bool.and_eq_true, beq_iff_eq, Option.isNone_iff_eq_none] at hc
    exact hno r hr hc.1 hc.2
  have h2 : firstAvailableSpot s l = none := by
    unfold firstAvailableSpot
    rw [List.find?_eq_none]
    intro sp hsp hc
    rw [Bool.and_eq_true, beq_iff_eq] at hc
    exact hnospot sp hsp hc.1
  unfold bookSpot
  rw [h1, h2]

/-- C9, witness: the empty store has no lot 1 at all; booking answers
NoAvailability. -/
theorem book_missing_lot_no_availability_witness :
    bookSpot 7 1 0 emptyStore = (emptyStore, Except.error ApiError.NoAvailability)
    ∧ ApiError.NoAvailability ≠ ApiError.NotFound :=
  book_missing_lot_no_availability emptyStore 7 1 0 (by decide) (by decide) (by decide)

/-- C4.  When book_spot succeeds while the spot rows have strictly
increasing primary keys (the autoincrement order every reachable
store has), the selected spot is exactly the first row of the lot in
Available status, i.e. the Available spot of the lot with the least
id: creation order, which is also the order of the generated spot
labels.  The choice is a function of the store alone, hence
reproducible. -/
theorem book_selects_first_available
    (s : Store) (u l : Nat) (now : ℚ) (s' : Store) (r : Reservation)
    (hsort : List.Pairwise (· < ·) (s.spots.map (fun sp => sp.id)))
    (h : bookSpot u l now s = (s', Except.ok r)) :
    ∃ sp, firstAvailableSpot s l = some sp ∧ r.spot_id = sp.id ∧ sp ∈ s.spots
      ∧ sp.lot_id = l ∧ sp.status = SpotStatus.A
      ∧ ∀ x ∈ s.spots, x.lot_id = l → x.status = SpotStatus.A → sp.id ≤ x.id := by
  rcases hfo : firstOpenResvOfUser s u with _ | r₀
  · rcases hfa : firstAvailableSpot s l with _ | sp
    · simp [bookSpot, hfo, hfa] at h
    · refine ⟨sp, rfl, ?_, ?_, ?_, ?_, ?_⟩
      · simp [bookSpot, hfo, hfa] at h
        rw [← h.2]
        rfl
      · exact List.mem_of_find?_eq_some hfa
      · have := List.find?_some hfa
        rw [Bool.and_eq_true, beq_iff_eq] at this
        exact this.1
      · have := List.find?_some hfa
        rw [Bool.and_eq_true, beq_iff_eq, beq_iff_eq] at this
        exact this.2
      · intro x hx hxl hxa
        refine find?_min_id _ s.spots hsort sp hfa x hx ?_
        rw [Bool.and_eq_true, beq_iff_eq, beq_iff_eq]
        exact ⟨hxl, hxa⟩
  · simp [bookSpot, hfo] at h

/-- The store after user 9 books in orderedSpotsStore. -/
def orderedSpotsBooked : Store := (bookSpot 9 1 0 orderedSpotsStore).1

/-- C4, witness: in a lot whose spot 1 is occupied and spots 2 and 3
are available, booking selects spot 2, the least-id available one. -/
theorem book_selects_first_available_witness :
    ∃ sp, firstAvailableSpot orderedSpotsStore 1 = some sp
      ∧ ({ id := 1, spot_id := 2, user_id := 9, parking_timestamp := 0,
           leaving_timestamp := none, parking_cost := none,
           duration_hours := none, remarks := none } : Reservation).spot_id = sp.id
      ∧ sp ∈ orderedSpotsStore.spots
      ∧ sp.lot_id = 1 ∧ sp.status = SpotStatus.A
      ∧ ∀ x ∈ orderedSpotsStore.spots, x.lot_id = 1 → x.status = SpotStatus.A →
          sp.id ≤ x.id :=
  book_selects_first_available orderedSpotsStore 9 1 0 orderedSpotsBooked
    { id := 1, spot_id := 2, user_id := 9, parking_timestamp := 0,
      leaving_timestamp := none, parking_cost := none,
      duration_hours := none, remarks := none }
    (by decide) (by decide)

/-- C6.  release_spot is not idempotent: after a successful release,
repeating the call on the same reservation by its owner answers
AlreadyReleased and returns the state of the first release unchanged,
so the leaving timestamp, cost and duration recorded by the first
call are untouched. -/
theorem release_second_call_already_released
    (s s₁ : Store) (rid u : Nat) (now now₂ : ℚ) (r : Reservation)
    (h : releaseSpot rid u now s = (s₁, Except.ok r)) :
    releaseSpot rid u now₂ s₁ = (s₁, Except.error ApiError.AlreadyReleased) := by
  rcases hfind : s.reservations.find? (fun x => x.id == rid) with _ | r₀
  · simp [releaseSpot, hfind] at h
  · have hid : r₀.id = rid := by
      have := List.find?_some hfind
      rwa [beq_iff_eq] at this
    by_cases huser : r₀.user_id = u
    · by_cases hsome : r₀.leaving_timestamp.isSome = true
      · simp [releaseSpot, hfind, huser, hsome] at h
      · have hopen : r₀.leaving_timestamp = none := by
          rcases hl : r₀.leaving_timestamp with _ | t
          · rfl
          · rw [hl] at hsome
            simp at hsome
        simp only [releaseSpot, hfind, huser, ne_eq, not_true_eq_false, if_false,
          hsome, Bool.false_eq_true, Prod.mk.injEq] at h
        have hs₁ := h.1
        have hresv : s₁.reservations.find? (fun x => x.id == rid)
            = some (closeResv now (releasePrice s r₀) r₀) := by
          rw [← hs₁]
          show (mapIfKey (fun x => x.id) rid (closeResv now (releasePrice s r₀))
              s.reservations).find? (fun x => x.id == rid) = _
          rw [find?_key_mapIfKey (fun x : Reservation => x.id) rid rid
            (closeResv now (releasePrice s r₀)) (fun x => rfl) s.reservations]
          rw [hfind]
          simp [hid]
        simp [releaseSpot, hresv, closeResv, huser]
    · simp [releaseSpot, hfind, huser] at h

/-- The store after the first release of bookedStore at time 3600. -/
def releasedOnceStore : Store := (releaseSpot 1 7 3600 bookedStore).1

/-- C7.  A shrink request for which fewer Available spots exist than
must be removed answers CapacityConflict and returns the store
unchanged: the declared spot count and the spot set are exactly as
before, with no partial mutation (the early return precedes every
session commit). -/
theorem shrink_capacity_conflict
    (s : Store) (lotId newCount : Nat) (lot : ParkingLot)
    (hfind : s.lots.find? (fun x => x.id == lotId) = some lot)
    (hlt : newCount < lot.number_of_spots)
    (hfew : (s.spots.filter (fun sp => sp.lot_id == lotId && sp.status == SpotStatus.A)).length
        < lot.number_of_spots - newCount) :
    updateLotCount lotId newCount s = (s, Except.error ApiError.CapacityConflict) := by
  have htake : ((s.spots.filter
        (fun sp => sp.lot_id == lotId && sp.status == SpotStatus.A)).take
          (lot.number_of_spots - newCount)).length < lot.number_of_spots - newCount := by
    rw [List.length_take]
    omega
  simp only [updateLotCount, hfind]
  rw [if_neg (by omega), if_pos hlt, if_pos htake]

/-- C7, witness: a five spot lot with three occupied spots, shrunk to
one spot, fails and still has its five spots. -/
theorem shrink_capacity_conflict_witness :
    updateLotCount 1 1 shrinkConflictStore =
      (shrinkConflictStore, Except.error ApiError.CapacityConflict) :=
  shrink_capacity_conflict shrinkConflictStore 1 1
    { id := 1, price_per_hour := 10, number_of_spots := 5 }
    (by decide) (by decide) (by decide)

/-- C8, counterexample.  Create a lot with three spots in the empty
store, shrink it to two (the shrink deletes the first available row,
the spot labelled SPOT-1-001), then grow it back to three: the grow
numbers the new spot from the current count, producing a second spot
labelled SPOT-1-003 in the same lot, so grow labels can collide with
existing labels in states produced by an earlier shrink. -/
theorem grow_label_collision_counterexample :
    (updateLotCount 1 3 shrinkGrowStore2).2 =
      Except.ok { id := 1, price_per_hour := 10, number_of_spots := 3 }
    ∧ shrinkGrowStore3.spots.map spotLabel =
        ["SPOT-1-002", "SPOT-1-003", "SPOT-1-003"]
    ∧ ¬(shrinkGrowStore3.spots.map spotLabel).Nodup := by
  refine ⟨by decide, by decide, ?_⟩
  intro h
  rw [show shrinkGrowStore3.spots.map spotLabel =
      ["SPOT-1-002", "SPOT-1-003", "SPOT-1-003"] from by decide] at h
  simp at h

/-- C8, amended.  A grow request appends exactly
newSpotCount - currentCount new spots, each Available, numbered
currentCount + 1 up to newSpotCount (hence labelled
SPOT-lot-currentCount+1 .. SPOT-lot-newSpotCount), and these labels
avoid every existing label of the lot PROVIDED every existing spot of
the lot is numbered at most currentCount, which holds for lots only
ever created and grown; after a shrink an existing number can exceed
the current count and the grow labels can collide (see the
counterexample). -/
theorem grow_appends_fresh_available
    (s : Store) (lotId newCount : Nat) (lot : ParkingLot)
    (hfind : s.lots.find? (fun x => x.id == lotId) = some lot)
    (hgt : lot.number_of_spots < newCount) :
    (updateLotCount lotId newCount s).1.spots
        = s.spots ++ freshSpots lotId s.nextSpotId lot.number_of_spots
            (newCount - lot.number_of_spots)
    ∧ (freshSpots lotId s.nextSpotId lot.number_of_spots
        (newCount - lot.number_of_spots)).length = newCount - lot.number_of_spots
    ∧ (∀ sp ∈ freshSpots lotId s.nextSpotId lot.number_of_spots
          (newCount - lot.number_of_spots),
        sp.status = SpotStatus.A ∧ sp.lot_id = lotId
          ∧ lot.number_of_spots < sp.spot_number ∧ sp.spot_number ≤ newCount)
    ∧ ((∀ sp ∈ s.spots, sp.lot_id = lotId → sp.spot_number ≤ lot.number_of_spots) →
        ∀ old ∈ s.spots, old.lot_id = lotId →
          ∀ nw ∈ freshSpots lotId s.nextSpotId lot.number_of_spots
              (newCount - lot.number_of_spots),
            old.spot_number ≠ nw.spot_number) := by
  refine ⟨?_, ?_, ?_, ?_⟩
  · simp only [updateLotCount, hfind, if_pos hgt]
  · simp [freshSpots]
  · intro sp hsp
    unfold freshSpots at hsp
    rw [List.mem_map] at hsp
    obtain ⟨k, hk, hsp⟩ := hsp
    rw [List.mem_range] at hk
    rw [← hsp]
    refine ⟨rfl, rfl, ?_, ?_⟩
    · show lot.number_of_spots < lot.number_of_spots + 1 + k
      omega
    · show lot.number_of_spots + 1 + k ≤ newCount
      omega
  · intro hbound old hold holdlot nw hnw
    unfold freshSpots at hnw
    rw [List.mem_map] at hnw
    obtain ⟨k, hk, hnw⟩ := hnw
    have h1 := hbound old hold holdlot
    rw [← hnw]
    simp only []
    omega

/-- C8, witness: growing a two spot lot to four appends the two
Available spots numbered 3 and 4, which collide with no existing
number of the lot. -/
theorem grow_appends_fresh_available_witness :
    (updateLotCount 1 4 growDemoStore).1.spots
        = growDemoStore.spots ++ freshSpots 1 3 2 2
    ∧ (freshSpots 1 3 2 2).length = 2
    ∧ (∀ sp ∈ freshSpots 1 3 2 2,
        sp.status = SpotStatus.A ∧ sp.lot_id = 1
          ∧ 2 < sp.spot_number ∧ sp.spot_number ≤ 4)
    ∧ ((∀ sp ∈ growDemoStore.spots, sp.lot_id = 1 → sp.spot_number ≤ 2) →
        ∀ old ∈ growDemoStore.spots, old.lot_id = 1 →
          ∀ nw ∈ freshSpots 1 3 2 2, old.spot_number ≠ nw.spot_number) :=
  grow_appends_fresh_available growDemoStore 1 4
    { id := 1, price_per_hour := 10, number_of_spots := 2 }
    (by decide) (by decide)

/-- C10.  In the CSV export, a completed reservation whose recorded
duration_hours is 0 or whose parking_cost is 0 renders N/A in the
Duration and Cost columns, because the Python expression value or
N/A treats the number 0 as absent; its Status column nevertheless
reads Completed and its Leaving Time prints the timestamp, so N/A in
those columns does not imply the reservation is open. -/
theorem csv_zero_values_render_na
    (r : Reservation) (t : ℚ)
    (hdone : r.leaving_timestamp = some t) :
    (r.duration_hours = some 0 → durationCell r = CsvCell.text "N/A")
    ∧ (r.parking_cost = some 0 → costCell r = CsvCell.text "N/A")
    ∧ statusCell r = CsvCell.text "Completed"
    ∧ leavingCell r = CsvCell.num t := by
  refine ⟨?_, ?_, ?_, ?_⟩
  · intro hd
    simp [durationCell, hd]
  · intro hc
    simp [costCell, hc]
  · simp [statusCell, hdone]
  · simp [leavingCell, hdone]

/-- A completed reservation with zero duration and zero cost, exactly
what releasing bookedStore at its own booking time 0 records. -/
def zeroCostResv : Reservation :=
  { id := 1, spot_id := 1, user_id := 7, parking_timestamp := 0,
    leaving_timestamp := some 0, parking_cost := some 0,
    duration_hours := some 0, remarks := none }

/-- C10, witness: the zero duration, zero cost completed reservation
arises from the code itself (release at the booking instant) and its
CSV row shows N/A, N/A, Completed, with the leaving time printed. -/
theorem csv_zero_values_render_na_witness :
    durationCell zeroCostResv = CsvCell.text "N/A"
    ∧ costCell zeroCostResv = CsvCell.text "N/A"
    ∧ statusCell zeroCostResv = CsvCell.text "Completed"
    ∧ leavingCell zeroCostResv = CsvCell.num 0
    ∧ (releaseSpot 1 7 0 bookedStore).2 = Except.ok zeroCostResv := by
  have h := csv_zero_values_render_na zeroCostResv 0 (by decide)
  exact ⟨h.1 (by decide), h.2.1 (by decide), h.2.2.1, h.2.2.2, by decide⟩

/-- C6, witness: release at 3600 succeeds with duration 1 and cost
10, a later second release answers AlreadyReleased and leaves the
state of the first release intact. -/
theorem release_second_call_already_released_witness :
    releaseSpot 1 7 9999 releasedOnceStore =
      (releasedOnceStore, Except.error ApiError.AlreadyReleased) :=
  release_second_call_already_released bookedStore releasedOnceStore 1 7 3600 9999
    { id := 1, spot_id := 1, user_id := 7, parking_timestamp := 0,
      leaving_timestamp := some 3600, parking_cost := some 10,
      duration_hours := some 1, remarks := none }
    (by decide)

/-- C1.  In every state reachable by the two core operations from a
consistent state, a spot is Occupied exactly when one open
reservation references it and Available exactly when none does;
moreover a successful booking creates the open reservation and flips
the selected spot to Occupied within the same committed operation,
and a successful release closes the reservation and flips its spot
to Available within the same committed operation. -/
theorem spot_status_matches_open_reservations
    (s₀ s : Store) (h₀ : Consistent s₀) (hr : Reach s₀ s) :
    (∀ sp ∈ s.spots, (sp.status = SpotStatus.O ↔ openSpotCount s sp.id = 1)
      ∧ (sp.status = SpotStatus.A ↔ openSpotCount s sp.id = 0))
    ∧ (∀ u l now s' r, bookSpot u l now s = (s', Except.ok r) →
        r ∈ s'.reservations ∧ r.leaving_timestamp = none ∧
        ∃ sp ∈ s'.spots, sp.id = r.spot_id ∧ sp.status = SpotStatus.O
          ∧ openSpotCount s' sp.id = 1)
    ∧ (∀ rid u now s' r, releaseSpot rid u now s = (s', Except.ok r) →
        r.leaving_timestamp = some now ∧
        ∃ sp ∈ s'.spots, sp.id = r.spot_id ∧ sp.status = SpotStatus.A
          ∧ openSpotCount s' sp.id = 0) := by
  have hCs := consistent_reach s₀ s h₀ hr
  refine ⟨hCs.2.2.2.2.1, ?_, ?_⟩
  · intro u l now s' r h
    rcases hfo : firstOpenResvOfUser s u with _ | r₀
    · rcases hfa : firstAvailableSpot s l with _ | sp
      · simp [bookSpot, hfo, hfa] at h
      · simp only [bookSpot, hfo, hfa, Prod.mk.injEq, Except.ok.injEq] at h
        rw [← h.1, ← h.2]
        exact bookResult_post s u l now sp hCs hfa
    · simp [bookSpot, hfo] at h
  · intro rid u now s' r h
    rcases hfind : s.reservations.find? (fun x => x.id == rid) with _ | r₀
    · simp [releaseSpot, hfind] at h
    · by_cases huser : r₀.user_id ≠ u
      · simp [releaseSpot, hfind, if_pos huser] at h
      · by_cases hsome : r₀.leaving_timestamp.isSome = true
        · simp [releaseSpot, hfind, if_neg huser, if_pos hsome] at h
        · have hopen : r₀.leaving_timestamp = none := by
            rcases hl : r₀.leaving_timestamp with _ | t
            · rfl
            · rw [hl] at hsome
              simp at hsome
          simp only [releaseSpot, hfind, if_neg huser, if_neg hsome, Prod.mk.injEq,
            Except.ok.injEq] at h
          rw [← h.1, ← h.2]
          exact releaseResult_post s rid u now r₀ hCs hfind hopen

/-- One lot at price 10 with spot 1 occupied under an open
reservation of user 7 and spot 2 available: a consistent state on
which both a booking and a release can succeed. -/
def mixedStore : Store :=
  { lots := [{ id := 1, price_per_hour := 10, number_of_spots := 2 }],
    spots := [{ id := 1, lot_id := 1, spot_number := 1, status := SpotStatus.O },
              { id := 2, lot_id := 1, spot_number := 2, status := SpotStatus.A }],
    reservations := [{ id := 1, spot_id := 1, user_id := 7, parking_timestamp := 0,
                       leaving_timestamp := none, parking_cost := none,
                       duration_hours := none, remarks := none }],
    activities := [],
    nextLotId := 2, nextSpotId := 3, nextResvId := 2 }

/-- mixedStore after user 8 books (spot 2 becomes occupied). -/
def mixedBooked : Store := (bookSpot 8 1 50 mixedStore).1

/-- mixedStore after user 7 releases reservation 1 at time 90. -/
def mixedReleased : Store := (releaseSpot 1 7 90 mixedStore).1

/-- C1, witness: in the consistent mixedStore the invariant holds, a
successful booking by user 8 yields an open reservation on spot 2
now Occupied with open count one, and the release of reservation 1
stamps it closed and frees spot 1 with open count zero. -/
theorem spot_status_matches_open_reservations_witness :
    (∀ sp ∈ mixedStore.spots,
      (sp.status = SpotStatus.O ↔ openSpotCount mixedStore sp.id = 1)
      ∧ (sp.status = SpotStatus.A ↔ openSpotCount mixedStore sp.id = 0))
    ∧ ({ id := 2, spot_id := 2, user_id := 8, parking_timestamp := 50,
         leaving_timestamp := none, parking_cost := none,
         duration_hours := none, remarks := none } : Reservation) ∈ mixedBooked.reservations
    ∧ ({ id := 2, spot_id := 2, user_id := 8, parking_timestamp := 50,
         leaving_timestamp := none, parking_cost := none,
         duration_hours := none, remarks := none } : Reservation).leaving_timestamp = none
    ∧ (∃ sp ∈ mixedBooked.spots, sp.id = 2 ∧ sp.status = SpotStatus.O
        ∧ openSpotCount mixedBooked sp.id = 1)
    ∧ ({ id := 1, spot_id := 1, user_id := 7, parking_timestamp := 0,
         leaving_timestamp := some 90, parking_cost := some (1/4),
         duration_hours := some (1/50), remarks := none } : Reservation).leaving_timestamp
        = some 90
    ∧ (∃ sp ∈ mixedReleased.spots, sp.id = 1 ∧ sp.status = SpotStatus.A
        ∧ openSpotCount mixedReleased sp.id = 0) := by
  have h := spot_status_matches_open_reservations mixedStore mixedStore (by decide)
    (Reach.refl mixedStore)
  have hb := h.2.1 8 1 50 mixedBooked
    { id := 2, spot_id := 2, user_id := 8, parking_timestamp := 50,
      leaving_timestamp := none, parking_cost := none,
      duration_hours := none, remarks := none } (by decide)
  have hf := h.2.2 1 7 90 mixedReleased
    { id := 1, spot_id := 1, user_id := 7, parking_timestamp := 0,
      leaving_timestamp := some 90, parking_cost := some (1/4),
      duration_hours := some (1/50), remarks := none } (by decide)
  exact ⟨h.1, hb.1, hb.2.1, hb.2.2, hf.1, hf.2⟩

/-- C2.  In every state reachable by the two core operations from a
consistent state, every user holds at most one open reservation, and
a booking attempt by a user who already holds an open reservation
answers AlreadyBooked with the store returned entirely unchanged (no
reservation, no status change, no activity row: the early return
precedes every write). -/
theorem at_most_one_open_reservation_per_user
    (s₀ s : Store) (h₀ : Consistent s₀) (hr : Reach s₀ s)
    (u l : Nat) (now : ℚ)
    (hopen : ∃ r ∈ s.reservations, r.user_id = u ∧ r.leaving_timestamp = none) :
    bookSpot u l now s = (s, Except.error ApiError.AlreadyBooked)
    ∧ ∀ v, openUserCount s v ≤ 1 := by
  have hCs := consistent_reach s₀ s h₀ hr
  constructor
  · obtain ⟨r₀, hr₀, hu₀, hn₀⟩ := hopen
    have hs : (firstOpenResvOfUser s u).isSome = true := by
      unfold firstOpenResvOfUser
      rw [List.find?_isSome]
      exact ⟨r₀, hr₀, by simp [hu₀, hn₀]⟩
    rcases hfo : firstOpenResvOfUser s u with _ | rr
    · rw [hfo] at hs
      simp at hs
    · simp [bookSpot, hfo]
  · intro v
    by_cases hv : openUserCount s v = 0
    · omega
    · have hpos : 0 < openUserCount s v := Nat.pos_of_ne_zero hv
      unfold openUserCount at hpos
      rw [List.countP_pos_iff] at hpos
      obtain ⟨a, ha, hpa⟩ := hpos
      rw [Bool.and_eq_true, beq_iff_eq] at hpa
      have hle := hCs.2.2.2.2.2 a ha
      rw [hpa.1] at hle
      exact hle

/-- C2, witness: user 7 of bookedStore holds the open reservation;
a second booking answers AlreadyBooked and the store is unchanged,
and every user of that consistent state holds at most one open
reservation. -/
theorem at_most_one_open_reservation_per_user_witness :
    bookSpot 7 1 5 bookedStore = (bookedStore, Except.error ApiError.AlreadyBooked)
    ∧ ∀ v, openUserCount bookedStore v ≤ 1 :=
  at_most_one_open_reservation_per_user bookedStore bookedStore (by decide)
    (Reach.refl bookedStore) 7 1 5 (by decide)
